import Mathlib

/-!
Verification development for the binding/handle-lifetime layer of the
pdfium-render repository excerpt (src/action_local_destination.rs,
src/form.rs, src/page_annotation_highlight.rs).

Native handles are modelled as natural numbers with 0 playing the role of
the null pointer.  The pdfium engine itself is external: each native entry
point the wrapped code calls is modelled as an uninterpreted field of a
`PdfiumLibraryBindings` record, so that theorems quantify over every
behaviour the engine could exhibit during one wrapped call.  Rust panics
(from `unwrap`) and the side-effecting native calls made by constructors
and destructors are made explicit: functions that can panic return a
`PanicOr` value, and functions with native side effects also return the
list of native calls they perform, in order.
-/

namespace PdfiumRender

/-- Raw native handle as passed across the C FFI boundary; 0 is the null
handle. -/
abbrev Handle := Nat

/-- Modelled from the spec: the diagnosable causes obtainable from the
auxiliary last-error query (`src/error.rs` is not part of the excerpt).
The spec's Error Classifier only needs the causes to be an enumerated
type containing a distinguished `Unknown` member. -/
inductive PdfiumInternalError
  | Unknown
  | FileError
  | FormatError
  | PasswordError
  | SecurityError
  | PageError
  deriving DecidableEq, Repr

/-- Modelled from the spec: the structured error type (`src/error.rs` is
not part of the excerpt), restricted to the variants the excerpt uses:
native-call failure carrying a diagnosable cause, and the two domain
decoding failures. -/
inductive PdfiumError
  | UnknownFormType
  | UnknownFormFieldType
  | PdfiumLibraryInternalError (err : PdfiumInternalError)
  deriving DecidableEq, Repr

/-- Modelled from the spec: the Engine Binding Interface, restricted to
the native entry points called by the excerpt.  Each field is one native
operation; `get_pdfium_last_error` is the auxiliary last-error query as
observed during the wrapped call under analysis. -/
structure PdfiumLibraryBindings where
  FPDFAction_GetDest : Handle → Handle → Handle
  get_pdfium_last_error : Option PdfiumInternalError
  FPDFDOC_InitFormFillEnvironment : Handle → Handle
  FPDF_GetFormType : Handle → Int

/-- The Rust `as u32` cast applied to a c_int result. -/
def asU32 (i : Int) : Nat := (i % (2 : Int) ^ 32).toNat

/-- Wrapper around a native destination handle
(`PdfDestination::from_pdfium` stores the handle and the bindings
reference; only the handle is data). -/
structure PdfDestination where
  handle : Handle
  deriving DecidableEq, Repr

/-- Embeds `PdfDestination::from_pdfium`. -/
def PdfDestination.from_pdfium (handle : Handle) : PdfDestination :=
  ⟨handle⟩

/-- Wrapper state of `PdfActionLocalDestination`: the action handle and
the owning document handle (the bindings reference is passed explicitly
to each method). -/
structure PdfActionLocalDestination where
  handle : Handle
  document : Handle
  deriving DecidableEq, Repr

/-- Embeds `PdfActionLocalDestination::destination`
(src/action_local_destination.rs lines 31-48): call
`FPDFAction_GetDest`; on a null handle consult the last-error query and
return the internal error carrying the reported cause, or the `Unknown`
cause when the query reports no error; on a non-null handle wrap it. -/
def PdfActionLocalDestination.destination (b : PdfiumLibraryBindings)
    (a : PdfActionLocalDestination) : Except PdfiumError PdfDestination :=
  let handle := b.FPDFAction_GetDest a.document a.handle
  if handle = 0 then
    match b.get_pdfium_last_error with
    | some error => .error (.PdfiumLibraryInternalError error)
    | none => .error (.PdfiumLibraryInternalError .Unknown)
  else
    .ok (PdfDestination.from_pdfium handle)

/-- Modelled from the spec: the bindgen form-type constant
`FORMTYPE_NONE` from the pdfium headers (the generated bindgen module is
not part of the excerpt). -/
def FORMTYPE_NONE : Nat := 0

/-- Modelled from the spec: the bindgen constant `FORMTYPE_ACRO_FORM`. -/
def FORMTYPE_ACRO_FORM : Nat := 1

/-- Modelled from the spec: the bindgen constant `FORMTYPE_XFA_FULL`. -/
def FORMTYPE_XFA_FULL : Nat := 2

/-- Modelled from the spec: the bindgen constant
`FORMTYPE_XFA_FOREGROUND`. -/
def FORMTYPE_XFA_FOREGROUND : Nat := 3

/-- The internal definition type of a `PdfForm` (src/form.rs lines
18-26). -/
inductive PdfFormType
  | None
  | Acrobat
  | XfaFull
  | XfaForeground
  deriving DecidableEq, Repr

/-- Embeds `PdfFormType::from_pdfium` (src/form.rs lines 29-37). -/
def PdfFormType.from_pdfium (form_type : Nat) : Except PdfiumError PdfFormType :=
  if form_type = FORMTYPE_NONE then .ok .None
  else if form_type = FORMTYPE_ACRO_FORM then .ok .Acrobat
  else if form_type = FORMTYPE_XFA_FULL then .ok .XfaFull
  else if form_type = FORMTYPE_XFA_FOREGROUND then .ok .XfaForeground
  else .error .UnknownFormType

/-- Embeds `PdfFormType::as_pdfium` (src/form.rs lines 39-50). -/
def PdfFormType.as_pdfium : PdfFormType → Nat
  | .None => FORMTYPE_NONE
  | .Acrobat => FORMTYPE_ACRO_FORM
  | .XfaFull => FORMTYPE_XFA_FULL
  | .XfaForeground => FORMTYPE_XFA_FOREGROUND

/-- Modelled from the spec: the bindgen form-field constant
`FPDF_FORMFIELD_UNKNOWN` from the pdfium headers. -/
def FPDF_FORMFIELD_UNKNOWN : Nat := 0

/-- Modelled from the spec: the bindgen constant
`FPDF_FORMFIELD_PUSHBUTTON`. -/
def FPDF_FORMFIELD_PUSHBUTTON : Nat := 1

/-- Modelled from the spec: the bindgen constant
`FPDF_FORMFIELD_CHECKBOX`. -/
def FPDF_FORMFIELD_CHECKBOX : Nat := 2

/-- Modelled from the spec: the bindgen constant
`FPDF_FORMFIELD_RADIOBUTTON`. -/
def FPDF_FORMFIELD_RADIOBUTTON : Nat := 3

/-- Modelled from the spec: the bindgen constant
`FPDF_FORMFIELD_COMBOBOX`. -/
def FPDF_FORMFIELD_COMBOBOX : Nat := 4

/-- Modelled from the spec: the bindgen constant
`FPDF_FORMFIELD_LISTBOX`. -/
def FPDF_FORMFIELD_LISTBOX : Nat := 5

/-- Modelled from the spec: the bindgen constant
`FPDF_FORMFIELD_TEXTFIELD`. -/
def FPDF_FORMFIELD_TEXTFIELD : Nat := 6

/-- Modelled from the spec: the bindgen constant
`FPDF_FORMFIELD_SIGNATURE`. -/
def FPDF_FORMFIELD_SIGNATURE : Nat := 7

/-- The widget display type of a single form field (src/form.rs lines
53-65). -/
inductive PdfFormFieldType
  | Unknown
  | PushButton
  | Checkbox
  | RadioButton
  | ComboBox
  | ListBox
  | TextField
  | Signature
  deriving DecidableEq, Repr

/-- Embeds `PdfFormFieldType::from_pdfium` (src/form.rs lines 68-83). -/
def PdfFormFieldType.from_pdfium (form_field_type : Nat) :
    Except PdfiumError PdfFormFieldType :=
  if form_field_type = FPDF_FORMFIELD_UNKNOWN then .ok .Unknown
  else if form_field_type = FPDF_FORMFIELD_PUSHBUTTON then .ok .PushButton
  else if form_field_type = FPDF_FORMFIELD_CHECKBOX then .ok .Checkbox
  else if form_field_type = FPDF_FORMFIELD_RADIOBUTTON then .ok .RadioButton
  else if form_field_type = FPDF_FORMFIELD_COMBOBOX then .ok .ComboBox
  else if form_field_type = FPDF_FORMFIELD_LISTBOX then .ok .ListBox
  else if form_field_type = FPDF_FORMFIELD_TEXTFIELD then .ok .TextField
  else if form_field_type = FPDF_FORMFIELD_SIGNATURE then .ok .Signature
  else .error .UnknownFormFieldType

/-- Embeds `PdfFormFieldType::as_pdfium` (src/form.rs lines 85-99). -/
def PdfFormFieldType.as_pdfium : PdfFormFieldType → Nat
  | .Unknown => FPDF_FORMFIELD_UNKNOWN
  | .PushButton => FPDF_FORMFIELD_PUSHBUTTON
  | .Checkbox => FPDF_FORMFIELD_CHECKBOX
  | .RadioButton => FPDF_FORMFIELD_RADIOBUTTON
  | .ComboBox => FPDF_FORMFIELD_COMBOBOX
  | .ListBox => FPDF_FORMFIELD_LISTBOX
  | .TextField => FPDF_FORMFIELD_TEXTFIELD
  | .Signature => FPDF_FORMFIELD_SIGNATURE

/-- Result of a Rust computation that may panic (the `unwrap` in
`PdfForm::form_type` is the only panic site in the excerpt). -/
inductive PanicOr (α : Type)
  | panicked
  | ret (val : α)
  deriving DecidableEq, Repr

/-- Wrapper state of `PdfForm` (src/form.rs lines 102-109): the native
form-fill handle, the owning document handle, and the fixed heap address
of the pinned `FPDF_FORMFILLINFO` callback block (the block's contents
are all inert no-op values, so only its address is data; the bindings
reference is passed explicitly to each method). -/
structure PdfForm where
  form_handle : Handle
  document_handle : Handle
  form_fill_info : Handle
  deriving DecidableEq, Repr

/-- Embeds `PdfForm::form_type` (src/form.rs lines 214-217): decode the
raw `FPDF_GetFormType` result cast `as u32`, and `unwrap` it — an
unrecognized code panics instead of returning. -/
def PdfForm.form_type (b : PdfiumLibraryBindings) (f : PdfForm) :
    PanicOr PdfFormType :=
  match PdfFormType.from_pdfium (asU32 (b.FPDF_GetFormType f.document_handle)) with
  | .ok t => .ret t
  | .error _ => .panicked

/-- One native call observable at the FFI boundary during form
construction and destruction.  `freeFFI` records the release of the
pinned callback block's heap memory (the drop of the `Pin<Box<_>>`). -/
inductive NativeEvent
  | initFFE (document : Handle) (ffi : Handle) (result : Handle)
  | exitFFE (form : Handle)
  | freeFFI (ffi : Handle)
  deriving DecidableEq, Repr

/-- Embeds `impl Drop for PdfForm` (src/form.rs lines 220-227) together
with Rust drop-glue order: the `drop` body calls
`FPDFDOC_ExitFormFillEnvironment` on the form handle, and only afterwards
are the wrapper's fields dropped, releasing the pinned
`FPDF_FORMFILLINFO` block. -/
def PdfForm.dropTrace (f : PdfForm) : List NativeEvent :=
  [.exitFFE f.form_handle, .freeFFI f.form_fill_info]

/-- Embeds `PdfForm::from_pdfium` (src/form.rs lines 115-198).  `ffi` is
the heap address at which `Box::pin` places the `FPDF_FORMFILLINFO`
block.  Returns the Rust return value (which may be a panic, since the
form-type check unwraps) paired with the ordered native calls made before
`from_pdfium` itself returns:
* non-null handle, no pending error, recognized non-`None` type: the
  wrapper is returned, so no teardown happens here;
* non-null handle, no pending error, type `None`: the wrapper is
  discarded inside `from_pdfium`, running its drop;
* non-null handle, no pending error, unrecognized type: the `unwrap`
  panics and unwinding drops the wrapper;
* null handle or pending error: no wrapper was built, so no teardown
  call is made, and the callback block alone is freed at scope exit. -/
def PdfForm.from_pdfium (b : PdfiumLibraryBindings) (document_handle : Handle)
    (ffi : Handle) : PanicOr (Option PdfForm) × List NativeEvent :=
  let form_handle := b.FPDFDOC_InitFormFillEnvironment document_handle
  let initEvents : List NativeEvent := [.initFFE document_handle ffi form_handle]
  if form_handle ≠ 0 ∧ b.get_pdfium_last_error = none then
    let form : PdfForm := ⟨form_handle, document_handle, ffi⟩
    match form.form_type b with
    | .ret t =>
      if t ≠ PdfFormType.None then
        (.ret (some form), initEvents)
      else
        (.ret none, initEvents ++ form.dropTrace)
    | .panicked => (.panicked, initEvents ++ form.dropTrace)
  else
    (.ret none, initEvents ++ [.freeFFI ffi])

/-- The complete sequence of native calls over a form wrapper's life:
the calls made during `PdfForm::from_pdfium`, followed — when a wrapper
was returned — by the calls its eventual drop makes. -/
def formLifecycleTrace (b : PdfiumLibraryBindings) (document_handle : Handle)
    (ffi : Handle) : List NativeEvent :=
  match PdfForm.from_pdfium b document_handle ffi with
  | (.ret (some f), tr) => tr ++ f.dropTrace
  | (.ret none, tr) => tr
  | (.panicked, tr) => tr

/-- Number of `FPDFDOC_ExitFormFillEnvironment` calls on a given handle
in a native-call trace. -/
def countExit (tr : List NativeEvent) (h : Handle) : Nat :=
  tr.countP (fun e => e == NativeEvent.exitFFE h)

/-- Concrete engine behaviour: the destination call returns handle 5, no
pending last error, form-fill init returns handle 1, form type is
`FORMTYPE_ACRO_FORM`. -/
def bOk : PdfiumLibraryBindings := ⟨fun _ _ => 5, none, fun _ => 1, fun _ => 1⟩

/-- Concrete engine behaviour: the destination call returns the null
handle and the last-error query reports a file error. -/
def bNullErr : PdfiumLibraryBindings :=
  ⟨fun _ _ => 0, some .FileError, fun _ => 1, fun _ => 1⟩

/-- Concrete engine behaviour: the destination call returns the null
handle yet the last-error query reports no error. -/
def bNullNoErr : PdfiumLibraryBindings := ⟨fun _ _ => 0, none, fun _ => 1, fun _ => 1⟩

/-- Concrete engine behaviour: form-fill init succeeds (handle 1, no
pending error) but the reported form type is `FORMTYPE_NONE`. -/
def bEmptyForm : PdfiumLibraryBindings := ⟨fun _ _ => 5, none, fun _ => 1, fun _ => 0⟩

/-- Concrete engine behaviour: form-fill init fails with a null form
handle. -/
def bFailInit : PdfiumLibraryBindings := ⟨fun _ _ => 5, none, fun _ => 0, fun _ => 0⟩

/-- Concrete engine behaviour: form-fill init returns the non-null handle
1 while the last-error query reports a pending file error. -/
def bLeak : PdfiumLibraryBindings :=
  ⟨fun _ _ => 5, some .FileError, fun _ => 1, fun _ => 0⟩

/-- Concrete engine behaviour: form-fill init succeeds but the engine
reports the unrecognized form type code 4. -/
def bBadType : PdfiumLibraryBindings := ⟨fun _ _ => 5, none, fun _ => 1, fun _ => 4⟩

/-- C10: the conversions between the wrapper enums and the native codes
round-trip: decoding the encoding of any `PdfFormType` or
`PdfFormFieldType` value yields that value back, successfully. -/
theorem formtype_formfieldtype_roundtrip :
    (∀ t : PdfFormType, PdfFormType.from_pdfium t.as_pdfium = .ok t) ∧
    (∀ ft : PdfFormFieldType, PdfFormFieldType.from_pdfium ft.as_pdfium = .ok ft) :=
  ⟨fun t => by cases t <;> rfl, fun ft => by cases ft <;> rfl⟩

/-- C8: `PdfFormType::from_pdfium` succeeds exactly on the four
recognized constants, mapping each to its matching variant; every other
u32 code yields the structured error `UnknownFormType`, which differs
from every native-call-failure (`PdfiumLibraryInternalError`) value. -/
theorem formtype_decode_characterization (code : Nat) (hcode : code < 2 ^ 32) :
    ((∃ t, PdfFormType.from_pdfium code = .ok t) ↔
      (code = FORMTYPE_NONE ∨ code = FORMTYPE_ACRO_FORM ∨
       code = FORMTYPE_XFA_FULL ∨ code = FORMTYPE_XFA_FOREGROUND)) ∧
    (code = FORMTYPE_NONE → PdfFormType.from_pdfium code = .ok .None) ∧
    (code = FORMTYPE_ACRO_FORM → PdfFormType.from_pdfium code = .ok .Acrobat) ∧
    (code = FORMTYPE_XFA_FULL → PdfFormType.from_pdfium code = .ok .XfaFull) ∧
    (code = FORMTYPE_XFA_FOREGROUND →
      PdfFormType.from_pdfium code = .ok .XfaForeground) ∧
    (code ≠ FORMTYPE_NONE → code ≠ FORMTYPE_ACRO_FORM → code ≠ FORMTYPE_XFA_FULL →
      code ≠ FORMTYPE_XFA_FOREGROUND →
      PdfFormType.from_pdfium code = .error .UnknownFormType) ∧
    (∀ e, PdfiumError.UnknownFormType ≠ .PdfiumLibraryInternalError e) := by
  unfold PdfFormType.from_pdfium FORMTYPE_NONE FORMTYPE_ACRO_FORM FORMTYPE_XFA_FULL
    FORMTYPE_XFA_FOREGROUND
  refine ⟨?_, ?_, ?_, ?_, ?_, ?_, fun e h => by cases h⟩ <;>
    · split_ifs <;> simp_all

/-- C8 witness: the characterization applied at the concrete code 2,
which decodes to the XFA-full variant. -/
theorem formtype_decode_characterization_witness :
    (2 : Nat) < 2 ^ 32 ∧ PdfFormType.from_pdfium 2 = .ok .XfaFull :=
  ⟨by norm_num, (formtype_decode_characterization 2 (by norm_num)).2.2.2.1 rfl⟩

/-- C1: `PdfActionLocalDestination::destination` succeeds exactly when
`FPDFAction_GetDest` returns a non-null handle (wrapping that handle); on
a null handle it returns the internal error carrying the cause reported
by the last-error query, or the `Unknown` cause when the query reports no
error. -/
theorem destination_classifies (b : PdfiumLibraryBindings)
    (a : PdfActionLocalDestination) :
    ((∃ d, a.destination b = .ok d) ↔ b.FPDFAction_GetDest a.document a.handle ≠ 0) ∧
    (b.FPDFAction_GetDest a.document a.handle ≠ 0 →
      a.destination b =
        .ok (PdfDestination.from_pdfium (b.FPDFAction_GetDest a.document a.handle))) ∧
    (∀ e, b.FPDFAction_GetDest a.document a.handle = 0 →
      b.get_pdfium_last_error = some e →
      a.destination b = .error (.PdfiumLibraryInternalError e)) ∧
    (b.FPDFAction_GetDest a.document a.handle = 0 →
      b.get_pdfium_last_error = none →
      a.destination b = .error (.PdfiumLibraryInternalError .Unknown)) := by
  unfold PdfActionLocalDestination.destination
  rcases hq : b.get_pdfium_last_error with _ | e <;>
    rcases hh : b.FPDFAction_GetDest a.document a.handle with _ | n <;>
      simp_all

/-- C1 witness: the classification applied to three concrete engine
behaviours, one per branch. -/
theorem destination_classifies_witness :
    PdfActionLocalDestination.destination bOk ⟨4, 9⟩ = .ok ⟨5⟩ ∧
    PdfActionLocalDestination.destination bNullErr ⟨4, 9⟩ =
      .error (.PdfiumLibraryInternalError .FileError) ∧
    PdfActionLocalDestination.destination bNullNoErr ⟨4, 9⟩ =
      .error (.PdfiumLibraryInternalError .Unknown) :=
  ⟨(destination_classifies bOk ⟨4, 9⟩).2.1 (by decide),
   (destination_classifies bNullErr ⟨4, 9⟩).2.2.1 .FileError (by decide) (by decide),
   (destination_classifies bNullNoErr ⟨4, 9⟩).2.2.2 (by decide) (by decide)⟩

/-- C2: when the form-fill environment initializes successfully (non-null
handle, no pending error) but the engine reports form type
`FORMTYPE_NONE`, `PdfForm::from_pdfium` returns `none` — its return type
has no error variant, and it does not panic. -/
theorem from_pdfium_empty_form_returns_none (b : PdfiumLibraryBindings)
    (doc ffi : Handle)
    (hinit : b.FPDFDOC_InitFormFillEnvironment doc ≠ 0)
    (herr : b.get_pdfium_last_error = none)
    (htype : asU32 (b.FPDF_GetFormType doc) = FORMTYPE_NONE) :
    (PdfForm.from_pdfium b doc ffi).1 = .ret none := by
  simp [PdfForm.from_pdfium, PdfForm.form_type, hinit, herr, htype,
    PdfFormType.from_pdfium]

/-- C2 witness: the empty-form policy applied to the concrete engine
behaviour `bEmptyForm`. -/
theorem from_pdfium_empty_form_returns_none_witness :
    bEmptyForm.FPDFDOC_InitFormFillEnvironment 7 ≠ 0 ∧
    bEmptyForm.get_pdfium_last_error = none ∧
    asU32 (bEmptyForm.FPDF_GetFormType 7) = FORMTYPE_NONE ∧
    (PdfForm.from_pdfium bEmptyForm 7 42).1 = .ret none :=
  ⟨by decide, by decide, by decide,
   from_pdfium_empty_form_returns_none bEmptyForm 7 42 (by decide) (by decide)
     (by decide)⟩

/-- C3 counterexample: a successful-but-empty form environment
(`bEmptyForm`: non-null handle, no pending error, form type
`FORMTYPE_NONE`) and a genuine initialization failure (`bFailInit`: null
form handle) produce equal `PdfForm::from_pdfium` results, so the two
outcomes are not observably different to the caller. -/
theorem empty_and_failure_results_equal :
    (bEmptyForm.FPDFDOC_InitFormFillEnvironment 7 ≠ 0 ∧
     bEmptyForm.get_pdfium_last_error = none ∧
     asU32 (bEmptyForm.FPDF_GetFormType 7) = FORMTYPE_NONE) ∧
    bFailInit.FPDFDOC_InitFormFillEnvironment 7 = 0 ∧
    (PdfForm.from_pdfium bEmptyForm 7 42).1 =
      (PdfForm.from_pdfium bFailInit 7 42).1 := by
  decide

/-- C3 (amended): `PdfForm::from_pdfium` returns `none` both when
initialization succeeds but the document has no usable form and when
initialization genuinely fails (null handle or pending last error); the
returned value does not distinguish the two outcomes. -/
theorem from_pdfium_conflates_empty_and_failure (b bf : PdfiumLibraryBindings)
    (doc docf ffi ffif : Handle)
    (hinit : b.FPDFDOC_InitFormFillEnvironment doc ≠ 0)
    (herr : b.get_pdfium_last_error = none)
    (htype : asU32 (b.FPDF_GetFormType doc) = FORMTYPE_NONE)
    (hfail : bf.FPDFDOC_InitFormFillEnvironment docf = 0 ∨
             bf.get_pdfium_last_error ≠ none) :
    (PdfForm.from_pdfium b doc ffi).1 = .ret none ∧
    (PdfForm.from_pdfium bf docf ffif).1 = .ret none := by
  constructor
  · simp [PdfForm.from_pdfium, PdfForm.form_type, hinit, herr, htype,
      PdfFormType.from_pdfium]
  · rcases hfail with h | h <;> simp [PdfForm.from_pdfium, h]

/-- C3 witness: the amended statement applied to the concrete engine
behaviours `bEmptyForm` and `bFailInit`. -/
theorem from_pdfium_conflates_empty_and_failure_witness :
    (PdfForm.from_pdfium bEmptyForm 7 42).1 = .ret none ∧
    (PdfForm.from_pdfium bFailInit 7 42).1 = .ret none :=
  from_pdfium_conflates_empty_and_failure bEmptyForm bFailInit 7 7 42 42
    (by decide) (by decide) (by decide) (Or.inl (by decide))

/-- C4: when initialization succeeds (non-null handle, no pending error)
and the engine reports a recognized form type other than
`FORMTYPE_NONE`, `PdfForm::from_pdfium` returns `some form`, and
`form_type` on that form returns a value that is never the `None`
variant. -/
theorem from_pdfium_nonempty_form_some (b : PdfiumLibraryBindings)
    (doc ffi : Handle)
    (hinit : b.FPDFDOC_InitFormFillEnvironment doc ≠ 0)
    (herr : b.get_pdfium_last_error = none)
    (htype : asU32 (b.FPDF_GetFormType doc) = FORMTYPE_ACRO_FORM ∨
             asU32 (b.FPDF_GetFormType doc) = FORMTYPE_XFA_FULL ∨
             asU32 (b.FPDF_GetFormType doc) = FORMTYPE_XFA_FOREGROUND) :
    ∃ f, (PdfForm.from_pdfium b doc ffi).1 = .ret (some f) ∧
      ∃ t, f.form_type b = .ret t ∧ t ≠ PdfFormType.None := by
  refine ⟨⟨b.FPDFDOC_InitFormFillEnvironment doc, doc, ffi⟩, ?_, ?_⟩
  · rcases htype with h | h | h <;>
      simp [PdfForm.from_pdfium, PdfForm.form_type, hinit, herr, h,
        PdfFormType.from_pdfium, FORMTYPE_NONE, FORMTYPE_ACRO_FORM,
        FORMTYPE_XFA_FULL, FORMTYPE_XFA_FOREGROUND]
  · rcases htype with h | h | h
    · exact ⟨.Acrobat, by
        simp [PdfForm.form_type, h, PdfFormType.from_pdfium, FORMTYPE_NONE,
          FORMTYPE_ACRO_FORM], by decide⟩
    · exact ⟨.XfaFull, by
        simp [PdfForm.form_type, h, PdfFormType.from_pdfium, FORMTYPE_NONE,
          FORMTYPE_ACRO_FORM, FORMTYPE_XFA_FULL], by decide⟩
    · exact ⟨.XfaForeground, by
        simp [PdfForm.form_type, h, PdfFormType.from_pdfium, FORMTYPE_NONE,
          FORMTYPE_ACRO_FORM, FORMTYPE_XFA_FULL, FORMTYPE_XFA_FOREGROUND],
        by decide⟩

/-- C4 witness: the non-empty-form guarantee applied to the concrete
engine behaviour `bOk`, whose form type is `FORMTYPE_ACRO_FORM`. -/
theorem from_pdfium_nonempty_form_some_witness :
    ∃ f, (PdfForm.from_pdfium bOk 7 42).1 = .ret (some f) ∧
      ∃ t, f.form_type bOk = .ret t ∧ t ≠ PdfFormType.None :=
  from_pdfium_nonempty_form_some bOk 7 42 (by decide) (by decide)
    (Or.inl (by decide))

/-- C5 counterexample: with the engine behaviour `bLeak`,
`FPDFDOC_InitFormFillEnvironment` returns the usable (non-null) handle 1,
yet because a last error is pending `from_pdfium` discards the raw handle
without building a wrapper, and `FPDFDOC_ExitFormFillEnvironment` is
called zero times on it over the whole lifecycle. -/
theorem init_nonnull_pending_error_leaks_handle :
    bLeak.FPDFDOC_InitFormFillEnvironment 7 = 1 ∧
    countExit (formLifecycleTrace bLeak 7 42) 1 = 0 := by
  decide

/-- C5 (amended): for every call to `FPDFDOC_InitFormFillEnvironment`
that returns a non-null handle while the last-error query reports no
error, `FPDFDOC_ExitFormFillEnvironment` is invoked exactly once on that
handle — by the destructor, or during `from_pdfium` when the wrapper is
discarded or dropped by panic unwinding; when the handle is non-null but
an error is pending, the handle is discarded without any release call. -/
theorem exit_called_exactly_once_when_init_clean (b : PdfiumLibraryBindings)
    (doc ffi : Handle)
    (hinit : b.FPDFDOC_InitFormFillEnvironment doc ≠ 0)
    (herr : b.get_pdfium_last_error = none) :
    countExit (formLifecycleTrace b doc ffi)
      (b.FPDFDOC_InitFormFillEnvironment doc) = 1 := by
  rcases hft : PdfFormType.from_pdfium (asU32 (b.FPDF_GetFormType doc)) with e | t
  · simp [formLifecycleTrace, PdfForm.from_pdfium, PdfForm.form_type, hinit, herr,
      hft, countExit, PdfForm.dropTrace]
  · by_cases ht : t = PdfFormType.None
    · subst ht
      simp [formLifecycleTrace, PdfForm.from_pdfium, PdfForm.form_type, hinit,
        herr, hft, countExit, PdfForm.dropTrace]
    · simp [formLifecycleTrace, PdfForm.from_pdfium, PdfForm.form_type, hinit,
        herr, hft, ht, countExit, PdfForm.dropTrace]

/-- C5 witness: the amended exactly-once guarantee applied to the
concrete engine behaviour `bOk`. -/
theorem exit_called_exactly_once_when_init_clean_witness :
    countExit (formLifecycleTrace bOk 7 42)
      (bOk.FPDFDOC_InitFormFillEnvironment 7) = 1 :=
  exit_called_exactly_once_when_init_clean bOk 7 42 (by decide) (by decide)

/-- C6: in the destructor of `PdfForm`, any release of the pinned
callback block's memory is strictly preceded by the
`FPDFDOC_ExitFormFillEnvironment` call on the form handle: the block is
never freed while the form-fill handle is still active. -/
theorem drop_exits_before_freeing_block (f : PdfForm) (j : Nat)
    (hj : f.dropTrace[j]? = some (.freeFFI f.form_fill_info)) :
    ∃ i, i < j ∧ f.dropTrace[i]? = some (.exitFFE f.form_handle) := by
  match j with
  | 0 => simp [PdfForm.dropTrace] at hj
  | 1 => exact ⟨0, by omega, rfl⟩
  | n + 2 => simp [PdfForm.dropTrace] at hj

/-- C6 witness: the teardown-before-free ordering applied to a concrete
form wrapper. -/
theorem drop_exits_before_freeing_block_witness :
    (PdfForm.dropTrace ⟨1, 7, 42⟩)[1]? = some (.freeFFI 42) ∧
    ∃ i, i < 1 ∧ (PdfForm.dropTrace ⟨1, 7, 42⟩)[i]? = some (.exitFFE 1) :=
  ⟨by decide, drop_exits_before_freeing_block ⟨1, 7, 42⟩ 1 (by decide)⟩

/-- C7 counterexample: with the engine behaviour `bBadType` the engine
reports the unrecognized form type code 4, and `PdfForm::form_type`
panics (the `unwrap` of the decoding failure) instead of returning a
result the caller must handle. -/
theorem form_type_panics_on_unrecognized_code :
    asU32 (bBadType.FPDF_GetFormType 7) = 4 ∧
    PdfFormType.from_pdfium 4 = .error .UnknownFormType ∧
    PdfForm.form_type bBadType ⟨1, 7, 42⟩ = .panicked :=
  ⟨by decide, rfl, by decide⟩

/-- C7 (amended): `PdfForm::form_type` returns a value exactly when the
engine reports one of the four recognized form type codes; for every
other code the decoding failure is not surfaced as a result — the
`unwrap` panics. -/
theorem form_type_returns_iff_recognized (b : PdfiumLibraryBindings)
    (f : PdfForm) :
    ((∃ t, f.form_type b = .ret t) ↔
      (asU32 (b.FPDF_GetFormType f.document_handle) = FORMTYPE_NONE ∨
       asU32 (b.FPDF_GetFormType f.document_handle) = FORMTYPE_ACRO_FORM ∨
       asU32 (b.FPDF_GetFormType f.document_handle) = FORMTYPE_XFA_FULL ∨
       asU32 (b.FPDF_GetFormType f.document_handle) = FORMTYPE_XFA_FOREGROUND)) ∧
    (f.form_type b = .panicked ↔
      ¬ (asU32 (b.FPDF_GetFormType f.document_handle) = FORMTYPE_NONE ∨
         asU32 (b.FPDF_GetFormType f.document_handle) = FORMTYPE_ACRO_FORM ∨
         asU32 (b.FPDF_GetFormType f.document_handle) = FORMTYPE_XFA_FULL ∨
         asU32 (b.FPDF_GetFormType f.document_handle) = FORMTYPE_XFA_FOREGROUND)) := by
  unfold PdfForm.form_type PdfFormType.from_pdfium
  split_ifs <;> simp_all

/-- C7 witness: the amended statement applied to the concrete engine
behaviour `bOk`, whose recognized form type code yields a returned
value. -/
theorem form_type_returns_iff_recognized_witness :
    ∃ t, PdfForm.form_type bOk ⟨1, 7, 42⟩ = .ret t :=
  ((form_type_returns_iff_recognized bOk ⟨1, 7, 42⟩).1).mpr
    (Or.inr (Or.inl (by decide)))

end PdfiumRender
